import Mathlib

set_option maxRecDepth 100000

/-!
Verification of the image-generation backend (`src/main.py`).

The development shallowly embeds the `/api/generate` endpoint: request
validation (the pydantic model `GenerateRequest` plus the in-handler empty
check), provider resolution, the live Stability call, the Picsum demo
fallback with its SHA-256 derived seed, the static 1x1 PNG fallback, and
the best-effort persistence side effect.  Network I/O is modelled by an
oracle (`Network`) mapping each outbound request to an HTTP outcome, and
`generate` additionally returns the trace of outbound calls it made.
-/

/-! ## SHA-256 over byte lists (bytes are `Nat` values < 256)

Embeds `hashlib.sha256`; the digest is returned as the full 256-bit
integer, matching `int(hexdigest, 16)` in the source. -/

/-- 2^32, the word modulus of SHA-256 arithmetic. -/
def w32 : Nat := 4294967296

/-- Right rotation of a 32-bit word expressed on `Nat`. -/
def rotr32 (n x : Nat) : Nat := (x / 2 ^ n + x % 2 ^ n * 2 ^ (32 - n)) % w32

/-- Logical right shift of a 32-bit word. -/
def shr32 (n x : Nat) : Nat := x / 2 ^ n

/-- Three-way xor. -/
def xor3 (a b c : Nat) : Nat := Nat.xor (Nat.xor a b) c

/-- SHA-256 `Ch` function; complement of a 32-bit word is xor with 2^32 - 1. -/
def shaCh (x y z : Nat) : Nat := Nat.xor (Nat.land x y) (Nat.land (Nat.xor x 4294967295) z)

/-- SHA-256 `Maj` function. -/
def shaMaj (x y z : Nat) : Nat := xor3 (Nat.land x y) (Nat.land x z) (Nat.land y z)

/-- SHA-256 big sigma 0. -/
def bSig0 (x : Nat) : Nat := xor3 (rotr32 2 x) (rotr32 13 x) (rotr32 22 x)

/-- SHA-256 big sigma 1. -/
def bSig1 (x : Nat) : Nat := xor3 (rotr32 6 x) (rotr32 11 x) (rotr32 25 x)

/-- SHA-256 small sigma 0. -/
def sSig0 (x : Nat) : Nat := xor3 (rotr32 7 x) (rotr32 18 x) (shr32 3 x)

/-- SHA-256 small sigma 1. -/
def sSig1 (x : Nat) : Nat := xor3 (rotr32 17 x) (rotr32 19 x) (shr32 10 x)

/-- The 64 SHA-256 round constants (FIPS 180-4, written in decimal). -/
def shaK : List Nat :=
  [1116352408, 1899447441, 3049323471, 3921009573, 961987163, 1508970993,
   2453635748, 2870763221, 3624381080, 310598401, 607225278, 1426881987,
   1925078388, 2162078206, 2614888103, 3248222580, 3835390401, 4022224774,
   264347078, 604807628, 770255983, 1249150122, 1555081692, 1996064986,
   2554220882, 2821834349, 2952996808, 3210313671, 3336571891, 3584528711,
   113926993, 338241895, 666307205, 773529912, 1294757372, 1396182291,
   1695183700, 1986661051, 2177026350, 2456956037, 2730485921, 2820302411,
   3259730800, 3345764771, 3516065817, 3600352804, 4094571909, 275423344,
   430227734, 506948616, 659060556, 883997877, 958139571, 1322822218,
   1537002063, 1747873779, 1955562222, 2024104815, 2227730452, 2361852424,
   2428436474, 2756734187, 3204031479, 3329325298]

/-- The SHA-256 initial hash state (decimal). -/
def shaH0 : List Nat :=
  [1779033703, 3144134277, 1013904242, 2773480762,
   1359893119, 2600822924, 528734635, 1541459225]

/-- `n` bytes of `v` in big-endian order. -/
def beBytes : Nat → Nat → List Nat
  | 0, _ => []
  | n + 1, v => beBytes n (v / 256) ++ [v % 256]

/-- SHA-256 padding: append 0x80, zeros to 56 mod 64, then the bit length. -/
def shaPad (msg : List Nat) : List Nat :=
  let l := msg.length
  let k := (55 + 64 - l % 64) % 64
  msg ++ [0x80] ++ List.replicate k 0 ++ beBytes 8 (8 * l)

/-- Group bytes into 32-bit big-endian words. -/
def toWords : List Nat → List Nat
  | a :: b :: c :: d :: rest => (((a * 256 + b) * 256 + c) * 256 + d) :: toWords rest
  | _ => []

/-- Group a word list into 16-word blocks. -/
def chunks16 : List Nat → List (List Nat)
  | w0 :: w1 :: w2 :: w3 :: w4 :: w5 :: w6 :: w7 ::
    w8 :: w9 :: w10 :: w11 :: w12 :: w13 :: w14 :: w15 :: rest =>
      [w0, w1, w2, w3, w4, w5, w6, w7, w8, w9, w10, w11, w12, w13, w14, w15] :: chunks16 rest
  | _ => []

/-- Extend the message schedule `n` further words; `acc` holds the words
produced so far, most recent first. -/
def extendSchedule (acc : List Nat) : Nat → List Nat
  | 0 => acc
  | n + 1 =>
    let nw := (sSig1 (acc.getD 1 0) + acc.getD 6 0 + sSig0 (acc.getD 14 0) + acc.getD 15 0) % w32
    extendSchedule (nw :: acc) n

/-- The 64-word message schedule of one block. -/
def shaSchedule (block : List Nat) : List Nat :=
  (extendSchedule block.reverse 48).reverse

/-- One round of the SHA-256 compression function on the 8-word state. -/
def compressStep (st : List Nat) (kw : Nat × Nat) : List Nat :=
  match st with
  | [a, b, c, d, e, f, g, h] =>
    let t1 := (h + bSig1 e + shaCh e f g + kw.1 + kw.2) % w32
    let t2 := (bSig0 a + shaMaj a b c) % w32
    [(t1 + t2) % w32, a, b, c, (d + t1) % w32, e, f, g]
  | _ => st

/-- Process one 16-word block into the running hash state. -/
def processBlock (h : List Nat) (block : List Nat) : List Nat :=
  let st := (shaK.zip (shaSchedule block)).foldl compressStep h
  (h.zip st).map fun p => (p.1 + p.2) % w32

/-- SHA-256 of a byte list, as the 256-bit digest integer
(`int(hashlib.sha256(m).hexdigest(), 16)`). -/
def sha256Nat (msg : List Nat) : Nat :=
  let hFinal := (chunks16 (toWords (shaPad msg))).foldl processBlock shaH0
  hFinal.foldl (fun acc x => acc * w32 + x) 0

/-! ## UTF-8 encoding of strings -/

/-- UTF-8 bytes of one character. -/
def utf8Char (c : Char) : List Nat :=
  let n := c.toNat
  if n < 0x80 then [n]
  else if n < 0x800 then [0xC0 + n / 64, 0x80 + n % 64]
  else if n < 0x10000 then [0xE0 + n / 4096, 0x80 + n / 64 % 64, 0x80 + n % 64]
  else [0xF0 + n / 262144, 0x80 + n / 4096 % 64, 0x80 + n / 64 % 64, 0x80 + n % 64]

/-- UTF-8 bytes of a string (`prompt.encode("utf-8")`). -/
def utf8 (s : String) : List Nat := s.data.flatMap utf8Char

/-! ## Base64 (`base64.b64encode(...).decode("utf-8")`) -/

/-- The standard base64 alphabet. -/
def b64Chars : List Char :=
  "ABCDEFGHIJKLMNOPQRSTUVWXYZabcdefghijklmnopqrstuvwxyz0123456789+/".data

/-- Character at a 6-bit index of the base64 alphabet. -/
def b64c (n : Nat) : Char := b64Chars.getD n 'A'

/-- Standard base64 encoding of a byte list. -/
def base64encode : List Nat → String
  | [] => ""
  | [a] => String.mk [b64c (a / 4), b64c (a % 4 * 16), '=', '=']
  | [a, b] => String.mk [b64c (a / 4), b64c (a % 4 * 16 + b / 16), b64c (b % 16 * 4), '=']
  | a :: b :: c :: rest =>
    String.mk [b64c (a / 4), b64c (a % 4 * 16 + b / 16), b64c (b % 16 * 4 + c / 64), b64c (c % 64)]
      ++ base64encode rest

-- validation of the hash and encoding against published test vectors
example : sha256Nat (utf8 "abc") % 10 ^ 8 = 17089965 := by decide
example : sha256Nat [] =
    102987336249554097029535212322581322789799900648198034993379397001115665086549 := by decide
example : base64encode (utf8 "any carnal pleasure.") = "YW55IGNhcm5hbCBwbGVhc3VyZS4=" := by decide
example : base64encode (utf8 "any carnal pleasure") = "YW55IGNhcm5hbCBwbGVhc3VyZQ==" := by decide
example : base64encode (utf8 "any carnal pleasur") = "YW55IGNhcm5hbCBwbGVhc3Vy" := by decide

/-! ## Data model of the endpoint (`src/main.py`) -/

/-- Pydantic model `GenerateRequest`: prompt, optional provider hint,
width and height (defaults already applied). -/
structure GenerateRequest where
  prompt : String
  provider : Option String
  width : Nat
  height : Nat
deriving DecidableEq

/-- Pydantic model `GenerateResponse`. -/
structure GenerateResponse where
  image_b64 : String
  provider : String
  model : Option String
  mode : String
  note : Option String
deriving DecidableEq

/-- Outcome of the handler body: an `HTTPException` with status and detail,
or a successful response. -/
inductive GenerateResult where
  | error (status : Nat) (detail : String)
  | ok (resp : GenerateResponse)
deriving DecidableEq

/-- The form data posted to the Stability endpoint (lines 115-125). -/
structure LiveData where
  prompt : String
  output_format : String
  aspect_ratio : String
deriving DecidableEq

/-- One outbound network call made by the handler. -/
inductive NetCall where
  | post (d : LiveData)
  | get (url : String)
deriving DecidableEq

/-- Outcome of one HTTP call: a response object carrying `status_code`,
`content` (bytes) and `text` (decoded body), or a raised transport /
timeout exception. -/
inductive HttpResult where
  | resp (status : Nat) (content : List Nat) (text : String)
  | error
deriving DecidableEq

/-- Oracle for the two outbound HTTP calls (`requests.post` /
`requests.get`). -/
structure Network where
  post : LiveData → HttpResult
  get : String → HttpResult

/-- Process environment: `STABILITY_API_KEY` (`none` when unset). -/
structure Env where
  stabilityKey : Option String

/-- Python truthiness of `stability_key`: set and non-empty. -/
def hasKey (env : Env) : Bool :=
  match env.stabilityKey with
  | some s => s != ""
  | none => false

/-- The whitespace characters removed by Python `str.strip()` (ASCII range). -/
def pyIsSpace (c : Char) : Bool :=
  c = ' ' || c = '\t' || c = '\n' || c = '\r' || c = '\x0b' || c = '\x0c'

/-- Python `s.strip()`: drop leading and trailing whitespace. -/
def pyStrip (s : String) : String :=
  String.mk (((s.data.dropWhile pyIsSpace).reverse.dropWhile pyIsSpace).reverse)

/-- Python `s.lower()` (ASCII case mapping). -/
def pyLower (s : String) : String := String.mk (s.data.map Char.toLower)

/-- Line 98: `(req.provider or ("stability" if stability_key else "demo")).lower()`.
Python `or` also skips an empty-string hint, since `""` is falsy. -/
def resolveProvider (env : Env) (hint : Option String) : String :=
  let dflt := if hasKey env then "stability" else "demo"
  pyLower (match hint with
   | some p => if p = "" then dflt else p
   | none => dflt)

/-- Python slice `s[:n]`. -/
def pyTake (n : Nat) (s : String) : String := String.mk (s.data.take n)

/-- Field validation of the pydantic model: `min_length=3` on the raw
prompt, `ge=128, le=1024` on width and height (lines 21-25). -/
def pydanticValid (req : GenerateRequest) : Prop :=
  3 ≤ req.prompt.length ∧ 128 ≤ req.width ∧ req.width ≤ 1024 ∧
    128 ≤ req.height ∧ req.height ≤ 1024

instance (req : GenerateRequest) : Decidable (pydanticValid req) := by
  unfold pydanticValid; infer_instance

/-- Line 155: `int(hashlib.sha256(prompt.encode("utf-8")).hexdigest(), 16) % (10**8)`. -/
def seedOf (prompt : String) : Nat := sha256Nat (utf8 prompt) % 10 ^ 8

/-- Line 156: the Picsum URL for a seed and dimensions. -/
def demoUrl (seed w h : Nat) : String :=
  "https://picsum.photos/seed/" ++ toString seed ++ "/" ++ toString w ++ "/" ++ toString h

/-- Line 165: the static demo-mode note. -/
def demoNote : String :=
  "Running in demo mode without an AI key. Set STABILITY_API_KEY to enable real image generation."

/-- Line 163: the embedded 1x1 white-pixel PNG. -/
def fallbackPngBytes : List Nat :=
  [137, 80, 78, 71, 13, 10, 26, 10, 0, 0, 0, 13, 73, 72, 68, 82, 0, 0, 0, 1, 0, 0, 0, 1,
   8, 6, 0, 0, 0, 31, 21, 196, 137, 0, 0, 0, 12, 73, 68, 65, 84, 120, 156, 99, 248, 15,
   4, 0, 9, 251, 3, 253, 134, 87, 198, 122, 0, 0, 0, 0, 73, 69, 78, 68, 174, 66, 96, 130]

/-- Lines 118-125: the data dict first receives `"{width}:{height}"`, then
both branches of the square test overwrite it with `"1:1"`. -/
def aspectRatioOf (w h : Nat) : String :=
  if w = h then "1:1" else "1:1"

/-- Lines 115-125: the form data posted to the Stability endpoint for a
request: the stripped prompt, PNG output, and the (always `1:1`) aspect
ratio. -/
def liveDataOf (req : GenerateRequest) : LiveData :=
  { prompt := pyStrip req.prompt, output_format := "png",
    aspect_ratio := aspectRatioOf req.width req.height }

/-- Lines 154-166: the demo path.  Fetch the seeded Picsum image; on a
transport exception or a `raise_for_status` failure (4xx/5xx) fall back to
the embedded PNG.  Returns the demo response together with the GET call. -/
def demoPath (net : Network) (provider prompt : String) (w h : Nat) :
    GenerateResponse × NetCall :=
  let seed := seedOf prompt
  let url := demoUrl seed w h
  let img_b64 :=
    match net.get url with
    | .resp status content _text =>
      if 400 ≤ status ∧ status < 600 then base64encode fallbackPngBytes
      else base64encode content
    | .error => base64encode fallbackPngBytes
  ({ image_b64 := img_b64, provider := provider, model := none, mode := "demo",
     note := some demoNote }, .get url)

/-- Lines 92-166: the `/api/generate` handler body.  `persistId` is the
result of the best-effort persistence write (`_id`; `none` when the write
failed).  Returns the handler outcome and the trace of outbound calls. -/
def generate (env : Env) (net : Network) (persistId : Option Nat) (req : GenerateRequest) :
    GenerateResult × List NetCall :=
  let prompt := pyStrip req.prompt
  if prompt = "" then (.error 400 "Prompt is required", [])
  else
    let provider := resolveProvider env req.provider
    let _i := persistId
    if provider = "stability" ∧ hasKey env = true then
      let d : LiveData := liveDataOf req
      match net.post d with
      | .resp status content text =>
        if status ≠ 200 then
          (.error 500 ("Stability API error: " ++ toString status ++ " " ++ pyTake 200 text),
           [.post d])
        else
          (.ok { image_b64 := base64encode content, provider := "stability",
                 model := some "stable-image-core", mode := "live", note := none }, [.post d])
      | .error =>
        let rc := demoPath net "demo" prompt req.width req.height
        (.ok rc.1, [.post d, rc.2])
    else
      let rc := demoPath net provider prompt req.width req.height
      (.ok rc.1, [rc.2])

/-- Outcome of a request to `/api/generate` as seen by the client:
pydantic validation error (422), handler `HTTPException`, or success. -/
inductive EndpointResult where
  | validationError (status : Nat)
  | httpError (status : Nat) (detail : String)
  | success (resp : GenerateResponse)
deriving DecidableEq

/-- The endpoint: pydantic validation, then the handler. -/
def callEndpoint (env : Env) (net : Network) (persistId : Option Nat) (req : GenerateRequest) :
    EndpointResult × List NetCall :=
  if pydanticValid req then
    match generate env net persistId req with
    | (.error s detail, calls) => (.httpError s detail, calls)
    | (.ok r, calls) => (.success r, calls)
  else (.validationError 422, [])

/-! ## Concrete fixtures used by witnesses and counterexamples -/

/-- Environment without a Stability key. -/
def envNoKey : Env := { stabilityKey := none }

/-- Environment with a configured Stability key. -/
def envKey : Env := { stabilityKey := some "sk-live" }

/-- Network where the live POST raises a transport error and the Picsum GET
succeeds with bytes `[1, 2, 3]`. -/
def netOkGet : Network :=
  { post := fun _ => .error, get := fun _ => .resp 200 [1, 2, 3] "" }

/-- Network where the live POST returns HTTP 500. -/
def netLive500 : Network :=
  { post := fun _ => .resp 500 [] "Internal Server Error",
    get := fun _ => .resp 200 [1, 2, 3] "" }

/-- Network where the live POST returns HTTP 503 and the Picsum GET raises. -/
def netLive503GetFail : Network :=
  { post := fun _ => .resp 503 [] "Service Unavailable", get := fun _ => .error }

/-- Network where every outbound call raises a transport error. -/
def netAllFail : Network := { post := fun _ => .error, get := fun _ => .error }

/-- Network where the live POST succeeds with bytes `[9, 9]`. -/
def netLiveOk : Network :=
  { post := fun _ => .resp 200 [9, 9] "", get := fun _ => .resp 200 [1, 2, 3] "" }


/-! ## Claims -/

/-- C3: the demo seed is a pure deterministic function of the prompt text:
it equals the SHA-256 digest of the UTF-8 bytes of the prompt, taken as a
full integer and reduced modulo 10^8, and the demo path requests exactly
the URL built from that seed; for the prompt "a red fox" the seed is
78648756 = sha256("a red fox") mod 10^8. -/
theorem C3_seed_pure_function :
    (∀ p : String, seedOf p = sha256Nat (utf8 p) % 10 ^ 8) ∧
    (∀ net provider p w h,
      (demoPath net provider p w h).2 = NetCall.get (demoUrl (seedOf p) w h)) ∧
    seedOf "a red fox" = 78648756 :=
  ⟨fun _ => rfl, fun _ _ _ _ _ => rfl, by decide⟩

/-- C9: the outcome of the best-effort persistence write (a stored id, or
`none` after a swallowed failure) never changes the response or the
outbound calls of `generate`. -/
theorem C9_persistence_failure_silent :
    ∀ env net persistId1 persistId2 req,
      generate env net persistId1 req = generate env net persistId2 req :=
  fun _ _ _ _ _ => rfl

/-- C10: two prompts equal after stripping surrounding whitespace produce
the same demo seed, the same stock-image URL (for equal dimensions), and
in fact identical `generate` behavior, because the handler derives the
seed from the stripped prompt. -/
theorem C10_whitespace_invariance (p1 p2 : String) (hp : pyStrip p1 = pyStrip p2) :
    seedOf (pyStrip p1) = seedOf (pyStrip p2) ∧
    (∀ w h, demoUrl (seedOf (pyStrip p1)) w h = demoUrl (seedOf (pyStrip p2)) w h) ∧
    ∀ env net persistId hint w h,
      generate env net persistId ⟨p1, hint, w, h⟩ = generate env net persistId ⟨p2, hint, w, h⟩ := by
  refine ⟨by rw [hp], fun w h => by rw [hp], fun env net persistId hint w h => ?_⟩
  unfold generate
  simp only [liveDataOf, hp]

/-- Witness for C10 at the prompts " a red fox " and "a red fox". -/
theorem C10_witness :
    seedOf (pyStrip " a red fox ") = seedOf (pyStrip "a red fox") ∧
    generate envNoKey netOkGet none ⟨" a red fox ", none, 512, 512⟩ =
      generate envNoKey netOkGet none ⟨"a red fox", none, 512, 512⟩ :=
  ⟨(C10_whitespace_invariance " a red fox " "a red fox" (by decide)).1,
   (C10_whitespace_invariance " a red fox " "a red fox" (by decide)).2.2
     envNoKey netOkGet none none 512 512⟩

/-- Every `post` call in the trace of `generate` carries exactly the form
data built in the live branch. -/
theorem generate_post_data (env : Env) (net : Network) (persistId : Option Nat)
    (req : GenerateRequest) (d : LiveData)
    (hmem : NetCall.post d ∈ (generate env net persistId req).2) :
    d = liveDataOf req := by
  by_cases h0 : pyStrip req.prompt = ""
  · simp [generate, h0] at hmem
  · by_cases h1 : resolveProvider env req.provider = "stability" ∧ hasKey env = true
    · rcases hpost : net.post (liveDataOf req) with ⟨status, content, text⟩ | _
      · by_cases h2 : status = 200
        · simp [generate, h0, h1, hpost, h2, demoPath] at hmem
          exact hmem
        · simp [generate, h0, h1, hpost, h2, demoPath] at hmem
          exact hmem
      · simp [generate, h0, h1, hpost, demoPath] at hmem
        exact hmem
    · simp [generate, h0, h1, demoPath] at hmem

/-- C8: the aspect-ratio form field sent to the live backend is `1:1` for
all requested dimensions, equal ones or not. -/
theorem C8_aspect_ratio_always_square :
    (∀ w h : Nat, aspectRatioOf w h = "1:1") ∧
    ∀ env net persistId req d,
      NetCall.post d ∈ (generate env net persistId req).2 → d.aspect_ratio = "1:1" := by
  have har : ∀ w h : Nat, aspectRatioOf w h = "1:1" := by
    intro w h; unfold aspectRatioOf; split <;> rfl
  refine ⟨har, fun env net persistId req d hmem => ?_⟩
  rw [generate_post_data env net persistId req d hmem]
  exact har req.width req.height

/-- The live form data of a 512 by 768 request, used by the C8 witness. -/
def liveData512x768 : LiveData := liveDataOf ⟨"a red fox", none, 512, 768⟩

/-- Witness for C8: a run whose trace contains a live `post` call, made
with width 512 and height 768, still posts aspect ratio `1:1`. -/
theorem C8_witness :
    aspectRatioOf 512 768 = "1:1" ∧ liveData512x768.aspect_ratio = "1:1" :=
  ⟨C8_aspect_ratio_always_square.1 512 768,
   C8_aspect_ratio_always_square.2 envKey netLiveOk none ⟨"a red fox", none, 512, 768⟩
     liveData512x768 (by decide)⟩

/-- C6: with no usable credential in the environment, every request with a
non-empty stripped prompt succeeds in demo mode with the non-empty static
note, whatever the provider hint and network behavior. -/
theorem C6_no_credential_demo :
    ∀ env net persistId req, hasKey env = false → pyStrip req.prompt ≠ "" →
      ∃ r, (generate env net persistId req).1 = .ok r ∧ r.mode = "demo" ∧
        r.note = some demoNote ∧ demoNote ≠ "" := by
  intro env net persistId req hk hp
  have h1 : ¬(resolveProvider env req.provider = "stability" ∧ hasKey env = true) := by
    rintro ⟨-, h2⟩
    rw [hk] at h2
    exact Bool.false_ne_true h2
  refine ⟨(demoPath net (resolveProvider env req.provider) (pyStrip req.prompt)
    req.width req.height).1, ?_, rfl, rfl, by decide⟩
  simp [generate, hp, h1]

/-- Witness for C6 at a concrete keyless environment, hint "stability". -/
theorem C6_witness :
    ∃ r, (generate envNoKey netOkGet none ⟨"a red fox", some "stability", 512, 512⟩).1 =
      .ok r ∧ r.mode = "demo" ∧ r.note = some demoNote ∧ demoNote ≠ "" :=
  C6_no_credential_demo envNoKey netOkGet none ⟨"a red fox", some "stability", 512, 512⟩
    (by decide) (by decide)

/-- C1 counterexample: a live credential is configured, the request
resolves to the live provider, and the live call returns HTTP 500; the
handler re-raises the `HTTPException` built from the response, so a 500
error — not a demo-mode success — reaches the caller. -/
theorem C1_counterexample :
    (generate envKey netLive500 none ⟨"a red fox", none, 512, 512⟩).1 =
      .error 500 "Stability API error: 500 Internal Server Error" := by decide

/-- C1 amended: a transport error or timeout of the live call is absorbed
and the request still succeeds in demo mode, but a non-2xx live response
is converted to an `HTTPException` and surfaces to the caller as a 500
error. -/
theorem C1_amended :
    ∀ env net persistId req, pyStrip req.prompt ≠ "" →
      resolveProvider env req.provider = "stability" → hasKey env = true →
      (net.post (liveDataOf req) = .error →
        ∃ r, (generate env net persistId req).1 = .ok r ∧ r.mode = "demo") ∧
      ∀ status content text, net.post (liveDataOf req) = .resp status content text →
        status ≠ 200 →
        (generate env net persistId req).1 =
          .error 500 ("Stability API error: " ++ toString status ++ " " ++ pyTake 200 text) := by
  intro env net persistId req hp hprov hkey
  constructor
  · intro hpost
    refine ⟨(demoPath net "demo" (pyStrip req.prompt) req.width req.height).1, ?_, rfl⟩
    simp [generate, hp, hprov, hkey, hpost]
  · intro status content text hpost hstatus
    simp [generate, hp, hprov, hkey, hpost, hstatus]

/-- Witness for C1: transport failure of the live call yields a demo-mode
success; a 500 live response yields a surfaced 500 error. -/
theorem C1_witness :
    (∃ r, (generate envKey netAllFail none ⟨"a red fox", none, 512, 512⟩).1 = .ok r ∧
      r.mode = "demo") ∧
    (generate envKey netLive500 none ⟨"a red fox", some "Stability", 512, 512⟩).1 =
      .error 500 ("Stability API error: " ++ toString 500 ++ " " ++
        pyTake 200 "Internal Server Error") := by
  constructor
  · exact (C1_amended envKey netAllFail none ⟨"a red fox", none, 512, 512⟩
      (by decide) (by decide) (by decide)).1 rfl
  · exact (C1_amended envKey netLive500 none ⟨"a red fox", some "Stability", 512, 512⟩
      (by decide) (by decide) (by decide)).2 500 [] "Internal Server Error" rfl (by decide)

/-- C2 counterexample: the live call fails with HTTP 503 and the stock
fetch would also fail, yet the handler returns a surfaced 500 error
rather than the static fallback image. -/
theorem C2_counterexample :
    (generate envKey netLive503GetFail none ⟨"sunset", none, 512, 512⟩).1 =
      .error 500 "Stability API error: 503 Service Unavailable" := by decide

/-- C2 amended: when the live call fails with a transport error (or the
live path is skipped) and the stock-image fetch also fails, the result is
a demo-mode success carrying the fixed non-empty static fallback image;
when the live call instead fails with a non-2xx response, a 500 error
surfaces (see the counterexample). -/
theorem C2_amended :
    ∀ env net persistId req, pyStrip req.prompt ≠ "" →
      (∀ d, net.post d = .error) → (∀ u, net.get u = .error) →
      ∃ r, (generate env net persistId req).1 = .ok r ∧ r.mode = "demo" ∧
        r.image_b64 = base64encode fallbackPngBytes ∧ fallbackPngBytes ≠ [] := by
  intro env net persistId req hp hpost hget
  by_cases h1 : resolveProvider env req.provider = "stability" ∧ hasKey env = true
  · refine ⟨(demoPath net "demo" (pyStrip req.prompt) req.width req.height).1, ?_, rfl, ?_, by decide⟩
    · simp [generate, hp, h1, hpost]
    · simp [demoPath, hget]
  · refine ⟨(demoPath net (resolveProvider env req.provider) (pyStrip req.prompt)
      req.width req.height).1, ?_, rfl, ?_, by decide⟩
    · simp [generate, hp, h1]
    · simp [demoPath, hget]

/-- Witness for C2: with every network call failing, the result is a
demo-mode success with the base64 of the embedded PNG. -/
theorem C2_witness :
    ∃ r, (generate envKey netAllFail none ⟨"sunset", none, 512, 512⟩).1 = .ok r ∧
      r.mode = "demo" ∧ r.image_b64 = base64encode fallbackPngBytes ∧
      fallbackPngBytes ≠ [] :=
  C2_amended envKey netAllFail none ⟨"sunset", none, 512, 512⟩ (by decide)
    (fun _ => rfl) (fun _ => rfl)

/-- C4 counterexample: the prompt "ab " strips to length 2, yet the request
passes validation (pydantic `min_length=3` counts the raw prompt) and the
handler proceeds to make a network call and succeed. -/
theorem C4_counterexample :
    (pyStrip "ab ").length = 2 ∧
    callEndpoint envNoKey netOkGet none ⟨"ab ", none, 512, 512⟩ =
      (.success { image_b64 := base64encode [1, 2, 3], provider := "demo", model := none,
                  mode := "demo", note := some demoNote },
       [.get (demoUrl 61558019 512 512)]) :=
  ⟨by decide, by decide⟩

/-- C4 amended: a prompt of raw length below 3 is rejected by pydantic
validation (422) before the handler; a prompt that strips to empty is
rejected (422 or the handler 400) with no network call — so every
whitespace-only prompt is rejected before orchestration.  A prompt of raw
length at least 3 whose stripped length is 1 or 2 is accepted (see the
counterexample). -/
theorem C4_amended :
    ∀ env net persistId req,
      (req.prompt.length < 3 →
        callEndpoint env net persistId req = (.validationError 422, [])) ∧
      (pyStrip req.prompt = "" →
        (callEndpoint env net persistId req).2 = [] ∧
        ((callEndpoint env net persistId req).1 = .validationError 422 ∨
          (callEndpoint env net persistId req).1 = .httpError 400 "Prompt is required")) := by
  intro env net persistId req
  constructor
  · intro hlen
    have hnv : ¬ pydanticValid req := by
      rintro ⟨h1, -⟩
      omega
    simp [callEndpoint, hnv]
  · intro hp
    by_cases hv : pydanticValid req
    · refine ⟨?_, Or.inr ?_⟩
      · simp [callEndpoint, hv, generate, hp]
      · simp [callEndpoint, hv, generate, hp]
    · exact ⟨by simp [callEndpoint, hv], Or.inl (by simp [callEndpoint, hv])⟩

/-- Witness for C4 at the whitespace-only prompts "  " and "   ". -/
theorem C4_witness :
    callEndpoint envNoKey netOkGet none ⟨"  ", none, 512, 512⟩ = (.validationError 422, []) ∧
    (callEndpoint envNoKey netOkGet none ⟨"   ", none, 512, 512⟩).2 = [] ∧
    ((callEndpoint envNoKey netOkGet none ⟨"   ", none, 512, 512⟩).1 = .validationError 422 ∨
      (callEndpoint envNoKey netOkGet none ⟨"   ", none, 512, 512⟩).1 =
        .httpError 400 "Prompt is required") :=
  ⟨(C4_amended envNoKey netOkGet none ⟨"  ", none, 512, 512⟩).1 (by decide),
   (C4_amended envNoKey netOkGet none ⟨"   ", none, 512, 512⟩).2 (by decide)⟩

/-- C5 counterexample: with the hint "openai" the returned provider field
is "openai", which is neither recognized identifier. -/
theorem C5_counterexample :
    (generate envNoKey netOkGet none ⟨"a red fox", some "openai", 512, 512⟩).1 =
      .ok { image_b64 := base64encode [1, 2, 3], provider := "openai", model := none,
            mode := "demo", note := some demoNote } ∧
    ("openai" : String) ≠ "stability" ∧ ("openai" : String) ≠ "demo" :=
  ⟨by decide, by decide, by decide⟩

/-- C5 amended: the provider field of a successful result is `stability`,
`demo`, or the lower-cased provider hint supplied by the caller; it is
confined to the recognized identifiers only when no (non-empty) hint is
given. -/
theorem C5_amended :
    ∀ env net persistId req r, (generate env net persistId req).1 = .ok r →
      r.provider = "stability" ∨ r.provider = "demo" ∨
        ∃ p, req.provider = some p ∧ r.provider = pyLower p := by
  intro env net persistId req r hok
  by_cases h0 : pyStrip req.prompt = ""
  · simp [generate, h0] at hok
  · by_cases h1 : resolveProvider env req.provider = "stability" ∧ hasKey env = true
    · rcases hpost : net.post (liveDataOf req) with ⟨status, content, text⟩ | _
      · by_cases h2 : status = 200
        · simp [generate, h0, h1, hpost, h2] at hok
          left
          rw [← hok]
        · simp [generate, h0, h1, hpost, h2] at hok
      · simp [generate, h0, h1, hpost, demoPath] at hok
        right; left
        rw [← hok]
    · simp [generate, h0, h1, demoPath] at hok
      have hr : r.provider = resolveProvider env req.provider := by rw [← hok]
      rcases hhint : req.provider with _ | p
      · rw [hhint] at hr
        cases hkey : hasKey env
        · right; left
          rw [hr]
          simp [resolveProvider, hkey]
          decide
        · left
          rw [hr]
          simp [resolveProvider, hkey]
          decide
      · rw [hhint] at hr
        by_cases hpe : p = ""
        · subst hpe
          cases hkey : hasKey env
          · right; left
            rw [hr]
            simp [resolveProvider, hkey]
            decide
          · left
            rw [hr]
            simp [resolveProvider, hkey]
            decide
        · right; right
          exact ⟨p, rfl, by rw [hr]; simp [resolveProvider, hpe]⟩

/-- Witness for C5 at a demo-mode run with the hint "openai". -/
theorem C5_witness :
    ("openai" : String) = "stability" ∨ ("openai" : String) = "demo" ∨
      ∃ p, (some "openai" : Option String) = some p ∧ ("openai" : String) = pyLower p := by
  have h := C5_amended envNoKey netOkGet none ⟨"a red fox", some "openai", 256, 256⟩
    { image_b64 := base64encode [1, 2, 3], provider := "openai", model := none,
      mode := "demo", note := some demoNote } (by decide)
  simpa using h

/-- C7 counterexample: an explicit empty-string hint is present but is not
used; with a credential configured the provider resolves to "stability",
not to the (lower-cased) hint "". -/
theorem C7_counterexample :
    resolveProvider envKey (some "") = "stability" ∧
    pyLower "" = "" ∧ ("stability" : String) ≠ "" :=
  ⟨by decide, by decide, by decide⟩

/-- C7 amended: a non-empty explicit hint is used lower-cased; a missing
or empty hint resolves to `stability` when a live credential is
configured, else `demo`. -/
theorem C7_amended :
    ∀ env hint,
      (∀ p, hint = some p → p ≠ "" → resolveProvider env hint = pyLower p) ∧
      (hint = none ∨ hint = some "" →
        resolveProvider env hint = if hasKey env = true then "stability" else "demo") := by
  intro env hint
  constructor
  · rintro p rfl hne
    simp [resolveProvider, hne]
  · rintro (rfl | rfl)
    · cases hkey : hasKey env
      · simp [resolveProvider, hkey]
        decide
      · simp [resolveProvider, hkey]
        decide
    · cases hkey : hasKey env
      · simp [resolveProvider, hkey]
        decide
      · simp [resolveProvider, hkey]
        decide

/-- Witness for C7: the hint "Stability" is lower-cased; a missing hint
falls back to the credential default. -/
theorem C7_witness :
    resolveProvider envNoKey (some "Stability") = pyLower "Stability" ∧
    resolveProvider envKey none = (if hasKey envKey = true then "stability" else "demo") :=
  ⟨(C7_amended envNoKey (some "Stability")).1 "Stability" rfl (by decide),
   (C7_amended envKey none).2 (Or.inl rfl)⟩
